import Mathlib

/-!
Verification of the Istanbul district/region lookup and the Aytemiz LPG merge
and text-output logic of the FuelAppDataProvider repository.

Strings are modelled as lists of characters (`Str`).  The Python string
primitives used by the code under scrutiny (`str.strip`, `str.split`,
`str.join`, `str.lower`, `str.upper`, `str.replace` with one-character
patterns, substring containment `in`) are given executable models below.
The case-mapping tables cover the character repertoire occurring in this
repository's data (ASCII plus the Turkish letters handled by the code),
including Python's special full lowercase mapping of 'İ' to "i" followed by
a combining dot above.
-/

abbrev Str := List Char

/-- Python whitespace characters recognised by `str.strip` / `str.split`
(the ASCII ones, which are the only ones occurring in the scraped data). -/
def isWs (c : Char) : Bool :=
  c = ' ' || c = '\t' || c = '\n' || c = '\x0b' || c = '\x0c' || c = '\r'

/-- Model of Python `str.strip()`: drop whitespace from both ends. -/
def pyStrip (s : Str) : Str :=
  ((s.dropWhile isWs).reverse.dropWhile isWs).reverse

/-- Helper for `pySplitWs`: accumulate the current word (reversed) while
scanning the string. -/
def wordsAux : Str → Str → List Str
  | [], acc => if acc.isEmpty then [] else [acc.reverse]
  | c :: cs, acc =>
    if isWs c then
      if acc.isEmpty then wordsAux cs [] else acc.reverse :: wordsAux cs []
    else
      wordsAux cs (c :: acc)

/-- Model of Python `str.split()` with no argument: split on runs of
whitespace, returning no empty words. -/
def pySplitWs (s : Str) : List Str := wordsAux s []

/-- Model of Python `sep.join(parts)`. -/
def joinWith (sep : Str) : List Str → Str
  | [] => []
  | [x] => x
  | x :: y :: rest => x ++ sep ++ joinWith sep (y :: rest)

/-- Does `s` start with `t`?  (Helper for substring containment.) -/
def strStartsWith : Str → Str → Bool
  | _, [] => true
  | [], _ :: _ => false
  | c :: cs, d :: ds => c = d && strStartsWith cs ds

/-- Model of Python `needle in hay` (substring containment). -/
def strContains : Str → Str → Bool
  | [], needle => needle.isEmpty
  | c :: cs, needle => strStartsWith (c :: cs) needle || strContains cs needle

/-- The characters of `s` that precede the first occurrence of `sep`;
model of Python `s.split(sep)[0]` when `sep` occurs in `s`. -/
def splitBeforeSep (sep : Str) : Str → Str
  | [] => []
  | c :: cs => if strStartsWith (c :: cs) sep then [] else c :: splitBeforeSep sep cs

/-- Model of Python `s.replace(a, b)` for a one-character pattern `a`. -/
def pyReplace (s : Str) (a b : Char) : Str :=
  s.map (fun c => if c = a then b else c)

/-- Python `str.lower` on one character, for the repertoire used here:
ASCII letters, the Turkish letters handled by the code, and Python's
special mapping of 'İ' (U+0130) to "i" plus U+0307. -/
def pyLowerChar (c : Char) : Str :=
  if 'A' ≤ c ∧ c ≤ 'Z' then [Char.ofNat (c.toNat + 32)]
  else if c = 'İ' then ['i', '\u0307']
  else if c = 'Ş' then ['ş']
  else if c = 'Ğ' then ['ğ']
  else if c = 'Ü' then ['ü']
  else if c = 'Ö' then ['ö']
  else if c = 'Ç' then ['ç']
  else [c]

/-- Model of Python `str.lower()`. -/
def pyLower (s : Str) : Str := (s.map pyLowerChar).flatten

/-- Python `str.upper` on one character, for the repertoire used here. -/
def pyUpperChar (c : Char) : Char :=
  if 'a' ≤ c ∧ c ≤ 'z' then Char.ofNat (c.toNat - 32)
  else if c = 'ı' then 'I'
  else if c = 'ş' then 'Ş'
  else if c = 'ğ' then 'Ğ'
  else if c = 'ü' then 'Ü'
  else if c = 'ö' then 'Ö'
  else if c = 'ç' then 'Ç'
  else c

/-- Model of Python `str.upper()`. -/
def pyUpper (s : Str) : Str := s.map pyUpperChar

/-- Python truthiness choice `o if o else d` for an optional string. -/
def pyOr (o : Option Str) (d : Str) : Str :=
  match o with
  | some (c :: cs) => c :: cs
  | _ => d

/-- Python truthiness of an optional string (`None` and `""` are falsy). -/
def optTruthy : Option Str → Bool
  | some (_ :: _) => true
  | _ => false

/-!  ## `src/common/istanbul_districts.py`  -/

/-- The `replacements` dict of `_normalize_turkish_chars`, in source order. -/
def turkishReplacements : List (Char × Char) :=
  [('ı', 'i'), ('İ', 'I'), ('ş', 's'), ('Ş', 'S'),
   ('ğ', 'g'), ('Ğ', 'G'), ('ü', 'u'), ('Ü', 'U'),
   ('ö', 'o'), ('Ö', 'O'), ('ç', 'c'), ('Ç', 'C')]

/-- Function `_normalize_turkish_chars` from `src/common/istanbul_districts.py`:
successively apply `str.replace` for each replacement pair. -/
def _normalize_turkish_chars (text : Str) : Str :=
  turkishReplacements.foldl (fun acc ab => pyReplace acc ab.1 ab.2) text

/-- Table `ISTANBUL_DISTRICT_REGIONS` from `src/common/istanbul_districts.py`,
in source (= Python dict insertion) order. -/
def ISTANBUL_DISTRICT_REGIONS : List (Str × Str) :=
  [("Arnavutköy".toList, "Avrupa".toList),
   ("Avcılar".toList, "Avrupa".toList),
   ("Bağcılar".toList, "Avrupa".toList),
   ("Bahçelievler".toList, "Avrupa".toList),
   ("Bakırköy".toList, "Avrupa".toList),
   ("Başakşehir".toList, "Avrupa".toList),
   ("Bayrampaşa".toList, "Avrupa".toList),
   ("Beşiktaş".toList, "Avrupa".toList),
   ("Beylikdüzü".toList, "Avrupa".toList),
   ("Beyoğlu".toList, "Avrupa".toList),
   ("Büyükçekmece".toList, "Avrupa".toList),
   ("Çatalca".toList, "Avrupa".toList),
   ("Esenler".toList, "Avrupa".toList),
   ("Esenyurt".toList, "Avrupa".toList),
   ("Eyüp".toList, "Avrupa".toList),
   ("Eyüpsultan".toList, "Avrupa".toList),
   ("Eminönü".toList, "Avrupa".toList),
   ("Fatih".toList, "Avrupa".toList),
   ("Gaziosmanpaşa".toList, "Avrupa".toList),
   ("Güngören".toList, "Avrupa".toList),
   ("Kağıthane".toList, "Avrupa".toList),
   ("Küçükçekmece".toList, "Avrupa".toList),
   ("Sarıyer".toList, "Avrupa".toList),
   ("Silivri".toList, "Avrupa".toList),
   ("Şişli".toList, "Avrupa".toList),
   ("Sultangazi".toList, "Avrupa".toList),
   ("Zeytinburnu".toList, "Avrupa".toList),
   ("Adalar".toList, "Anadolu".toList),
   ("Ataşehir".toList, "Anadolu".toList),
   ("Beykoz".toList, "Anadolu".toList),
   ("Çekmeköy".toList, "Anadolu".toList),
   ("Kadıköy".toList, "Anadolu".toList),
   ("Kartal".toList, "Anadolu".toList),
   ("Maltepe".toList, "Anadolu".toList),
   ("Pendik".toList, "Anadolu".toList),
   ("Sancaktepe".toList, "Anadolu".toList),
   ("Sultanbeyli".toList, "Anadolu".toList),
   ("Şile".toList, "Anadolu".toList),
   ("Tuzla".toList, "Anadolu".toList),
   ("Ümraniye".toList, "Anadolu".toList),
   ("Üsküdar".toList, "Anadolu".toList)]

/-- The normalization applied to both the lookup input and each table key in
`get_istanbul_district_region`:
`_normalize_turkish_chars(" ".join(name.strip().split()).lower())`. -/
def normalizeForLookup (s : Str) : Str :=
  _normalize_turkish_chars (pyLower (joinWith [' '] (pySplitWs (pyStrip s))))

/-- The scan over the (ordered) table performed by
`get_istanbul_district_region`: return the region of the first key whose
normalization equals the (already normalized) input. -/
def scanRegions : List (Str × Str) → Str → Option Str
  | [], _ => none
  | kv :: rest, n =>
    if normalizeForLookup kv.1 = n then some kv.2 else scanRegions rest n

/-- Function `get_istanbul_district_region` from `src/common/istanbul_districts.py`. -/
def get_istanbul_district_region (district_name : Str) : Option Str :=
  scanRegions ISTANBUL_DISTRICT_REGIONS (normalizeForLookup district_name)

/-!  ## `src/aytemiz/scraper.py`: data model  -/

/-- Dataclass `AytemizBenzinPriceRow` from `src/aytemiz/scraper.py`. -/
structure AytemizBenzinPriceRow where
  city : Str
  district : Option Str
  benzin_95 : Option Str := none
  motorin : Option Str := none
  motorin_optimum : Option Str := none
  kalorifer_yakiti : Option Str := none
  fuel_oil : Option Str := none
  lpg : Option Str := none
deriving DecidableEq

/-- Dataclass `AytemizLPGPriceRow` from `src/aytemiz/scraper.py`. -/
structure AytemizLPGPriceRow where
  city : Str
  district : Option Str
  lpg : Str
deriving DecidableEq

/-- The fresh per-row copy built at the start of `_merge_lpg_for_single_city`
(`AytemizBenzinPriceRow(city=p.city, district=p.district, ...)`). -/
def copyRow (p : AytemizBenzinPriceRow) : AytemizBenzinPriceRow :=
  { city := p.city, district := p.district, benzin_95 := p.benzin_95,
    motorin := p.motorin, motorin_optimum := p.motorin_optimum,
    kalorifer_yakiti := p.kalorifer_yakiti, fuel_oil := p.fuel_oil, lpg := p.lpg }

/-- Python dict lookup on an insertion-ordered association list
(first — in a dict, only — binding of the key). -/
def lookupKey : List (Str × List AytemizLPGPriceRow) → Str → Option (List AytemizLPGPriceRow)
  | [], _ => none
  | kv :: rest, key => if kv.1 = key then some kv.2 else lookupKey rest key

/-- One step of the scan over `lpg_data.items()` in the Istanbul branch of
`_merge_lpg_for_single_city`: keys whose whitespace-normalized form mentions
Istanbul update the Avrupa price (if the key mentions "Avrupa") or else the
Anadolu price (if it mentions "Anadolu") to `lpg_rows[0].lpg if lpg_rows
else None`. -/
def lpgScanStep (acc : Option Str × Option Str) (kv : Str × List AytemizLPGPriceRow) :
    Option Str × Option Str :=
  let nk := joinWith [' '] (pySplitWs kv.1)
  if strContains nk "İstanbul".toList || strContains nk "Istanbul".toList then
    if strContains nk "Avrupa".toList then
      (kv.2.head?.map (fun r => r.lpg), acc.2)
    else if strContains nk "Anadolu".toList then
      (acc.1, kv.2.head?.map (fun r => r.lpg))
    else acc
  else acc

/-- The full scan of `lpg_data` for the Istanbul LPG prices
(`istanbul_lpg_avrupa`, `istanbul_lpg_anadolu`), both initially `None`. -/
def istanbulLpgScan (lpg_data : List (Str × List AytemizLPGPriceRow)) :
    Option Str × Option Str :=
  lpg_data.foldl lpgScanStep (none, none)

/-- The per-row body of the Istanbul district loop of
`_merge_lpg_for_single_city`: skip rows without a district and rows whose
lowercased district is a region label, else look the district up and apply
the region's (truthy) LPG price. -/
def istMergeRow (av an : Option Str) (p : AytemizBenzinPriceRow) : AytemizBenzinPriceRow :=
  match p.district with
  | none => p
  | some d =>
    if pyLower d = "avrupa".toList ∨ pyLower d = "anadolu".toList then p
    else
      match get_istanbul_district_region d with
      | some reg =>
        if reg = "Avrupa".toList ∧ optTruthy av then { p with lpg := av }
        else if reg = "Anadolu".toList ∧ optTruthy an then { p with lpg := an }
        else p
      | none => p

/-- Function `_merge_lpg_for_single_city` from `src/aytemiz/scraper.py`. -/
def _merge_lpg_for_single_city (city_name : Str)
    (benzin_prices : List AytemizBenzinPriceRow)
    (lpg_data : List (Str × List AytemizLPGPriceRow)) : List AytemizBenzinPriceRow :=
  let merged_prices := benzin_prices.map copyRow
  if city_name = "İstanbul".toList then
    let scanned := istanbulLpgScan lpg_data
    merged_prices.map (istMergeRow scanned.1 scanned.2)
  else
    match lookupKey lpg_data city_name with
    | some (r :: _) => merged_prices.map (fun p => { p with lpg := some r.lpg })
    | _ => merged_prices

/-!  ## `src/aytemiz/scraper.py`: text output  -/

/-- The sequence of `str.replace` calls shared by `_normalize_location_name`
and `_normalize_city_name_for_filename`, in source order. -/
def scraperReplacements : List (Char × Char) :=
  [('İ', 'I'), ('ı', 'i'), ('ş', 's'), ('Ş', 'S'),
   ('ğ', 'g'), ('Ğ', 'G'), ('ü', 'u'), ('Ü', 'U'),
   ('ö', 'o'), ('Ö', 'O'), ('ç', 'c'), ('Ç', 'C')]

/-- The Turkish-character replacement chain of `src/aytemiz/scraper.py`. -/
def scraperTurkishFold (s : Str) : Str :=
  scraperReplacements.foldl (fun acc ab => pyReplace acc ab.1 ab.2) s

/-- Function `_normalize_location_name` from `src/aytemiz/scraper.py`:
replace Turkish characters, then `.upper().strip()`. -/
def _normalize_location_name (location : Str) : Str :=
  pyStrip (pyUpper (scraperTurkishFold location))

/-- One output line of `_write_aytemiz_prices_to_text`: the normalized
location (district if truthy, else city) and the six labeled price fields,
`'-'` for falsy values, joined by `" | "`. -/
def formatAytemizRow (p : AytemizBenzinPriceRow) : Str :=
  let location := _normalize_location_name (pyOr p.district p.city)
  joinWith " | ".toList
    [location,
     "Benzin 95: ".toList ++ pyOr p.benzin_95 "-".toList,
     "Motorin: ".toList ++ pyOr p.motorin "-".toList,
     "Motorin Optimum: ".toList ++ pyOr p.motorin_optimum "-".toList,
     "Kalorifer Yakıtı: ".toList ++ pyOr p.kalorifer_yakiti "-".toList,
     "Fuel Oil: ".toList ++ pyOr p.fuel_oil "-".toList,
     "LPG: ".toList ++ pyOr p.lpg "-".toList]

/-- The list of lines built by `_write_aytemiz_prices_to_text`
(one per input row). -/
def writeAytemizLines (prices : List AytemizBenzinPriceRow) : List Str :=
  prices.map formatAytemizRow

/-- Function `_write_aytemiz_prices_to_text` from `src/aytemiz/scraper.py`, modelled
as the text written to the output file: `"\n".join(lines)`. -/
def _write_aytemiz_prices_to_text (prices : List AytemizBenzinPriceRow) : Str :=
  joinWith ['\n'] (writeAytemizLines prices)

/-- Function `_normalize_city_name_for_filename` from `src/aytemiz/scraper.py`. -/
def _normalize_city_name_for_filename (city_name : Str) : Str :=
  let base := if strContains city_name " / ".toList
    then splitBeforeSep " / ".toList city_name else city_name
  pyUpper (scraperTurkishFold base)

/-- The output file name chosen by `save_all_cities_prices_txt`:
`f"aytemiz_{normalized_name}_prices.txt"`. -/
def aytemizFileName (city_name : Str) : Str :=
  "aytemiz_".toList ++ _normalize_city_name_for_filename city_name ++ "_prices.txt".toList

/-!  ## Helper definitions for the proofs  -/

/-- The pointwise effect of one list of character replacements applied in
order to a single character. -/
def charFoldSteps (reps : List (Char × Char)) (c : Char) : Char :=
  reps.foldl (fun x ab => if x = ab.1 then ab.2 else x) c

/-- The Turkish-to-ASCII character mapping, written pointwise (the common
pointwise form of both replacement chains in the code). -/
def turkFold (c : Char) : Char :=
  if c = 'ı' then 'i' else if c = 'İ' then 'I'
  else if c = 'ş' then 's' else if c = 'Ş' then 'S'
  else if c = 'ğ' then 'g' else if c = 'Ğ' then 'G'
  else if c = 'ü' then 'u' else if c = 'Ü' then 'U'
  else if c = 'ö' then 'o' else if c = 'Ö' then 'O'
  else if c = 'ç' then 'c' else if c = 'Ç' then 'C'
  else c

/-- The twelve Turkish characters replaced by `_normalize_turkish_chars`. -/
def turkishSourceChars : List Char :=
  turkishReplacements.map (fun ab => ab.1)

/-- Does this `lpg_data` entry update `istanbul_lpg_avrupa` in the scan of
`_merge_lpg_for_single_city`?  (Its whitespace-normalized key mentions
Istanbul and "Avrupa".) -/
def updAv (kv : Str × List AytemizLPGPriceRow) : Bool :=
  let nk := joinWith [' '] (pySplitWs kv.1)
  (strContains nk "İstanbul".toList || strContains nk "Istanbul".toList) &&
    strContains nk "Avrupa".toList

/-- Does this `lpg_data` entry update `istanbul_lpg_anadolu` in the scan of
`_merge_lpg_for_single_city`?  (Its whitespace-normalized key mentions
Istanbul and "Anadolu" but not "Avrupa".) -/
def updAn (kv : Str × List AytemizLPGPriceRow) : Bool :=
  let nk := joinWith [' '] (pySplitWs kv.1)
  (strContains nk "İstanbul".toList || strContains nk "Istanbul".toList) &&
    !strContains nk "Avrupa".toList && strContains nk "Anadolu".toList

/-- The last element of a list satisfying `p`, if any. -/
def lastSat (p : α → Bool) : List α → Option α
  | [] => none
  | x :: xs =>
    match lastSat p xs with
    | some y => some y
    | none => if p x then some x else none

/-- The fields of a benzin price row other than `lpg`. -/
def rowFrame (r : AytemizBenzinPriceRow) :
    Str × Option Str × Option Str × Option Str × Option Str × Option Str × Option Str :=
  (r.city, r.district, r.benzin_95, r.motorin, r.motorin_optimum,
   r.kalorifer_yakiti, r.fuel_oil)

/-!  ## Spec-side definitions (for the refinement claim about the text output)

These follow the wording of the specification (§6 and the claim): one line
per row consisting of the uppercased ASCII-normalized location and six
labeled `Label: value` fields joined by `" | "`, `'-'` for missing values;
files named `aytemiz_<CITY>_prices.txt` from the uppercased ASCII-normalized
city name. -/

/-- Spec-side name normalization: map Turkish letters to ASCII, uppercase. -/
def specNormalizeName (s : Str) : Str := (s.map turkFold).map pyUpperChar

/-- Spec-side location of a row: the district if present (truthy), else the
city, normalized (with surrounding whitespace trimmed). -/
def specLocationName (p : AytemizBenzinPriceRow) : Str :=
  pyStrip (specNormalizeName (pyOr p.district p.city))

/-- Spec-side list of the six labeled price fields of a row, in order. -/
def specFieldList (p : AytemizBenzinPriceRow) : List (Str × Option Str) :=
  [("Benzin 95".toList, p.benzin_95),
   ("Motorin".toList, p.motorin),
   ("Motorin Optimum".toList, p.motorin_optimum),
   ("Kalorifer Yakıtı".toList, p.kalorifer_yakiti),
   ("Fuel Oil".toList, p.fuel_oil),
   ("LPG".toList, p.lpg)]

/-- Spec-side rendering of one labeled field: `Label: value`, `'-'` when
the value is missing. -/
def specRenderPair (lv : Str × Option Str) : Str :=
  lv.1 ++ ": ".toList ++ pyOr lv.2 "-".toList

/-- Spec-side rendering of one output line. -/
def specLine (p : AytemizBenzinPriceRow) : Str :=
  joinWith " | ".toList (specLocationName p :: (specFieldList p).map specRenderPair)

/-- Spec-side output file name for a city. -/
def specFileName (city : Str) : Str :=
  "aytemiz_".toList ++ specNormalizeName city ++ "_prices.txt".toList

/-!  ## Concrete sample data (used by witnesses and counterexamples)  -/

def kadikoyRow : AytemizBenzinPriceRow :=
  { city := "İstanbul".toList, district := some "Kadıköy".toList,
    benzin_95 := some "47.20".toList }

def avrupaLabelRow : AytemizBenzinPriceRow :=
  { city := "İstanbul".toList, district := some "Avrupa".toList }

def istAvrupaLpgRow : AytemizLPGPriceRow :=
  { city := "İstanbul".toList, district := some "Avrupa".toList, lpg := "17.86".toList }

def istAnadoluLpgRow : AytemizLPGPriceRow :=
  { city := "İstanbul".toList, district := some "Anadolu".toList, lpg := "18.50".toList }

def sampleIstLpgData : List (Str × List AytemizLPGPriceRow) :=
  [("İstanbul / Avrupa".toList, [istAvrupaLpgRow]),
   ("İstanbul / Anadolu".toList, [istAnadoluLpgRow])]

def ankaraLpgRow : AytemizLPGPriceRow :=
  { city := "Ankara".toList, district := none, lpg := "19.75".toList }

def ankaraBenzinRow : AytemizBenzinPriceRow :=
  { city := "Ankara".toList, district := none, benzin_95 := some "46.10".toList }

/-!  # Lemmas and claim theorems  -/

lemma copyRow_eq (p : AytemizBenzinPriceRow) : copyRow p = p := rfl

lemma foldl_pyReplace_eq_map (reps : List (Char × Char)) :
    ∀ s : Str, reps.foldl (fun acc ab => pyReplace acc ab.1 ab.2) s = s.map (charFoldSteps reps) := by
  induction reps with
  | nil =>
    intro s
    have h : charFoldSteps ([] : List (Char × Char)) = fun c => c := funext fun c => rfl
    rw [List.foldl_nil, h, List.map_id']
  | cons ab t ih =>
    intro s
    rw [List.foldl_cons, ih (pyReplace s ab.1 ab.2)]
    simp [pyReplace, List.map_map, charFoldSteps, Function.comp]

lemma charFoldSteps_turkish (c : Char) : charFoldSteps turkishReplacements c = turkFold c := by
  by_cases h1 : c = 'ı'
  · subst h1; decide
  by_cases h2 : c = 'İ'
  · subst h2; decide
  by_cases h3 : c = 'ş'
  · subst h3; decide
  by_cases h4 : c = 'Ş'
  · subst h4; decide
  by_cases h5 : c = 'ğ'
  · subst h5; decide
  by_cases h6 : c = 'Ğ'
  · subst h6; decide
  by_cases h7 : c = 'ü'
  · subst h7; decide
  by_cases h8 : c = 'Ü'
  · subst h8; decide
  by_cases h9 : c = 'ö'
  · subst h9; decide
  by_cases h10 : c = 'Ö'
  · subst h10; decide
  by_cases h11 : c = 'ç'
  · subst h11; decide
  by_cases h12 : c = 'Ç'
  · subst h12; decide
  simp [charFoldSteps, turkishReplacements, turkFold, h1, h2, h3, h4, h5, h6, h7, h8, h9, h10, h11, h12]

lemma charFoldSteps_scraper (c : Char) : charFoldSteps scraperReplacements c = turkFold c := by
  by_cases h1 : c = 'ı'
  · subst h1; decide
  by_cases h2 : c = 'İ'
  · subst h2; decide
  by_cases h3 : c = 'ş'
  · subst h3; decide
  by_cases h4 : c = 'Ş'
  · subst h4; decide
  by_cases h5 : c = 'ğ'
  · subst h5; decide
  by_cases h6 : c = 'Ğ'
  · subst h6; decide
  by_cases h7 : c = 'ü'
  · subst h7; decide
  by_cases h8 : c = 'Ü'
  · subst h8; decide
  by_cases h9 : c = 'ö'
  · subst h9; decide
  by_cases h10 : c = 'Ö'
  · subst h10; decide
  by_cases h11 : c = 'ç'
  · subst h11; decide
  by_cases h12 : c = 'Ç'
  · subst h12; decide
  simp [charFoldSteps, scraperReplacements, turkFold, h1, h2, h3, h4, h5, h6, h7, h8, h9, h10, h11, h12]

lemma normalize_turkish_eq_map (s : Str) : _normalize_turkish_chars s = s.map turkFold := by
  rw [_normalize_turkish_chars, foldl_pyReplace_eq_map]
  have h : charFoldSteps turkishReplacements = turkFold := funext charFoldSteps_turkish
  rw [h]

lemma scraperTurkishFold_eq_map (s : Str) : scraperTurkishFold s = s.map turkFold := by
  rw [scraperTurkishFold, foldl_pyReplace_eq_map]
  have h : charFoldSteps scraperReplacements = turkFold := funext charFoldSteps_scraper
  rw [h]

lemma turkFold_fixed_of_ne (c : Char)
    (h1 : c ≠ 'ı') (h2 : c ≠ 'İ') (h3 : c ≠ 'ş') (h4 : c ≠ 'Ş')
    (h5 : c ≠ 'ğ') (h6 : c ≠ 'Ğ') (h7 : c ≠ 'ü') (h8 : c ≠ 'Ü')
    (h9 : c ≠ 'ö') (h10 : c ≠ 'Ö') (h11 : c ≠ 'ç') (h12 : c ≠ 'Ç') :
    turkFold c = c := by
  simp [turkFold, h1, h2, h3, h4, h5, h6, h7, h8, h9, h10, h11, h12]

lemma turkFold_idem (c : Char) : turkFold (turkFold c) = turkFold c := by
  by_cases h1 : c = 'ı'
  · subst h1; decide
  by_cases h2 : c = 'İ'
  · subst h2; decide
  by_cases h3 : c = 'ş'
  · subst h3; decide
  by_cases h4 : c = 'Ş'
  · subst h4; decide
  by_cases h5 : c = 'ğ'
  · subst h5; decide
  by_cases h6 : c = 'Ğ'
  · subst h6; decide
  by_cases h7 : c = 'ü'
  · subst h7; decide
  by_cases h8 : c = 'Ü'
  · subst h8; decide
  by_cases h9 : c = 'ö'
  · subst h9; decide
  by_cases h10 : c = 'Ö'
  · subst h10; decide
  by_cases h11 : c = 'ç'
  · subst h11; decide
  by_cases h12 : c = 'Ç'
  · subst h12; decide
  rw [turkFold_fixed_of_ne c h1 h2 h3 h4 h5 h6 h7 h8 h9 h10 h11 h12,
      turkFold_fixed_of_ne c h1 h2 h3 h4 h5 h6 h7 h8 h9 h10 h11 h12]

lemma turkFold_not_source (c : Char) : turkFold c ∉ turkishSourceChars := by
  by_cases h1 : c = 'ı'
  · subst h1; decide
  by_cases h2 : c = 'İ'
  · subst h2; decide
  by_cases h3 : c = 'ş'
  · subst h3; decide
  by_cases h4 : c = 'Ş'
  · subst h4; decide
  by_cases h5 : c = 'ğ'
  · subst h5; decide
  by_cases h6 : c = 'Ğ'
  · subst h6; decide
  by_cases h7 : c = 'ü'
  · subst h7; decide
  by_cases h8 : c = 'Ü'
  · subst h8; decide
  by_cases h9 : c = 'ö'
  · subst h9; decide
  by_cases h10 : c = 'Ö'
  · subst h10; decide
  by_cases h11 : c = 'ç'
  · subst h11; decide
  by_cases h12 : c = 'Ç'
  · subst h12; decide
  rw [turkFold_fixed_of_ne c h1 h2 h3 h4 h5 h6 h7 h8 h9 h10 h11 h12]
  simp [turkishSourceChars, turkishReplacements, h1, h2, h3, h4, h5, h6, h7, h8, h9, h10, h11, h12]

/-- C10: `_normalize_turkish_chars` is idempotent, and its output contains
none of the twelve Turkish characters it replaces. -/
theorem spec_c10_normalize_turkish_idempotent (s : Str) :
    _normalize_turkish_chars (_normalize_turkish_chars s) = _normalize_turkish_chars s
    ∧ ∀ c ∈ _normalize_turkish_chars s, c ∉ turkishSourceChars := by
  constructor
  · rw [normalize_turkish_eq_map, normalize_turkish_eq_map, List.map_map]
    have h : turkFold ∘ turkFold = turkFold := funext turkFold_idem
    rw [h]
  · intro c hc
    rw [normalize_turkish_eq_map] at hc
    obtain ⟨a, _, rfl⟩ := List.mem_map.1 hc
    exact turkFold_not_source a

/-- Witness for C10 at the concrete input "Şişli". -/
theorem spec_c10_witness :
    _normalize_turkish_chars (_normalize_turkish_chars "Şişli".toList)
      = _normalize_turkish_chars "Şişli".toList
    ∧ 'S' ∈ _normalize_turkish_chars "Şişli".toList ∧ 'S' ∉ turkishSourceChars :=
  ⟨(spec_c10_normalize_turkish_idempotent "Şişli".toList).1, by decide,
   (spec_c10_normalize_turkish_idempotent "Şişli".toList).2 'S' (by decide)⟩

lemma regionTable_functional :
    ∀ kv1 ∈ ISTANBUL_DISTRICT_REGIONS, ∀ kv2 ∈ ISTANBUL_DISTRICT_REGIONS,
      normalizeForLookup kv1.1 = normalizeForLookup kv2.1 → kv1.2 = kv2.2 := by decide

lemma scanRegions_eq_some {l : List (Str × Str)} {n : Str} {r : Str}
    (h : scanRegions l n = some r) :
    ∃ kv, kv ∈ l ∧ normalizeForLookup kv.1 = n ∧ kv.2 = r := by
  induction l with
  | nil => simp [scanRegions] at h
  | cons kv t ih =>
    by_cases hk : normalizeForLookup kv.1 = n
    · rw [scanRegions, if_pos hk] at h
      exact ⟨kv, List.mem_cons_self kv t, hk, Option.some.inj h⟩
    · rw [scanRegions, if_neg hk] at h
      obtain ⟨kv2, hm, hn, hr⟩ := ih h
      exact ⟨kv2, List.mem_cons_of_mem kv hm, hn, hr⟩

lemma scanRegions_eq_none {l : List (Str × Str)} {n : Str}
    (h : ∀ kv ∈ l, normalizeForLookup kv.1 ≠ n) : scanRegions l n = none := by
  induction l with
  | nil => rfl
  | cons kv t ih =>
    rw [scanRegions, if_neg (h kv (List.mem_cons_self kv t))]
    exact ih fun kv2 hm => h kv2 (List.mem_cons_of_mem kv hm)

lemma scanRegions_mem_functional {l : List (Str × Str)}
    (hfun : ∀ kv1 ∈ l, ∀ kv2 ∈ l, normalizeForLookup kv1.1 = normalizeForLookup kv2.1 → kv1.2 = kv2.2)
    {k r : Str} (hmem : (k, r) ∈ l) :
    scanRegions l (normalizeForLookup k) = some r := by
  induction l with
  | nil => simp at hmem
  | cons kv t ih =>
    by_cases hk : normalizeForLookup kv.1 = normalizeForLookup k
    · rw [scanRegions, if_pos hk]
      exact congrArg some (hfun kv (List.mem_cons_self kv t) (k, r) hmem hk)
    · rw [scanRegions, if_neg hk]
      rcases List.mem_cons.1 hmem with heq | hmem2
      · obtain ⟨k0, r0⟩ := kv
        obtain ⟨hk1, hk2⟩ := Prod.mk.injEq k r k0 r0 ▸ heq
        subst hk1
        exact absurd rfl hk
      · exact ih (fun kv1 h1 kv2 h2 => hfun kv1 (List.mem_cons_of_mem kv h1) kv2 (List.mem_cons_of_mem kv h2)) hmem2

/-- C3: any input whose normalization (lowercase, collapsed whitespace,
Turkish characters mapped to ASCII) coincides with the normalization of a
table key is mapped by `get_istanbul_district_region` to that key's region. -/
theorem spec_c3_normalized_variants_same_region (s k r : Str)
    (hmem : (k, r) ∈ ISTANBUL_DISTRICT_REGIONS)
    (heq : normalizeForLookup s = normalizeForLookup k) :
    get_istanbul_district_region s = some r := by
  rw [get_istanbul_district_region, heq]
  exact scanRegions_mem_functional regionTable_functional hmem

/-- Witness for C3: the case-and-diacritic variant "KADIKÖY" of the table
key "Kadıköy" resolves to "Anadolu". -/
theorem spec_c3_witness :
    ("Kadıköy".toList, "Anadolu".toList) ∈ ISTANBUL_DISTRICT_REGIONS
    ∧ normalizeForLookup "KADIKÖY".toList = normalizeForLookup "Kadıköy".toList
    ∧ get_istanbul_district_region "KADIKÖY".toList = some "Anadolu".toList :=
  ⟨by decide, by decide,
   spec_c3_normalized_variants_same_region "KADIKÖY".toList "Kadıköy".toList "Anadolu".toList
     (by decide) (by decide)⟩

/-- C4: an input whose normalization matches no table key yields `none`
(the total Lean model also shows no exception can be raised). -/
theorem spec_c4_unknown_district_none (s : Str)
    (h : ∀ kv ∈ ISTANBUL_DISTRICT_REGIONS, normalizeForLookup kv.1 ≠ normalizeForLookup s) :
    get_istanbul_district_region s = none :=
  scanRegions_eq_none h

/-- Witness for C4 at the concrete input "Ankara". -/
theorem spec_c4_witness :
    (∀ kv ∈ ISTANBUL_DISTRICT_REGIONS, normalizeForLookup kv.1 ≠ normalizeForLookup "Ankara".toList)
    ∧ get_istanbul_district_region "Ankara".toList = none :=
  ⟨by decide, spec_c4_unknown_district_none "Ankara".toList (by decide)⟩

/-- C6: a region is returned only for inputs whose normalization is exactly
the normalization of some table key (no approximate matching). -/
theorem spec_c6_exact_normalized_match_only (s r : Str)
    (h : get_istanbul_district_region s = some r) :
    ∃ kv, kv ∈ ISTANBUL_DISTRICT_REGIONS
      ∧ normalizeForLookup kv.1 = normalizeForLookup s ∧ kv.2 = r :=
  scanRegions_eq_some h

/-- Witness for C6 at the concrete input "Beşiktaş". -/
theorem spec_c6_witness :
    ∃ kv, kv ∈ ISTANBUL_DISTRICT_REGIONS
      ∧ normalizeForLookup kv.1 = normalizeForLookup "Beşiktaş".toList
      ∧ kv.2 = "Avrupa".toList :=
  spec_c6_exact_normalized_match_only "Beşiktaş".toList "Avrupa".toList (by decide)

/-- C7: the table is functional modulo normalization (no two entries with
the same normalized key carry different regions), so the lookup result does
not depend on the order in which the table is scanned. -/
theorem spec_c7_table_functional_order_independent :
    (∀ kv1 ∈ ISTANBUL_DISTRICT_REGIONS, ∀ kv2 ∈ ISTANBUL_DISTRICT_REGIONS,
      normalizeForLookup kv1.1 = normalizeForLookup kv2.1 → kv1.2 = kv2.2)
    ∧ ∀ l, l.Perm ISTANBUL_DISTRICT_REGIONS →
        ∀ s, scanRegions l (normalizeForLookup s) = get_istanbul_district_region s := by
  refine ⟨regionTable_functional, ?_⟩
  intro l hp s
  rw [get_istanbul_district_region]
  have hfunl : ∀ kv1 ∈ l, ∀ kv2 ∈ l,
      normalizeForLookup kv1.1 = normalizeForLookup kv2.1 → kv1.2 = kv2.2 :=
    fun kv1 h1 kv2 h2 => regionTable_functional kv1 (hp.mem_iff.1 h1) kv2 (hp.mem_iff.1 h2)
  cases h : scanRegions ISTANBUL_DISTRICT_REGIONS (normalizeForLookup s) with
  | none =>
    have hall : ∀ kv ∈ ISTANBUL_DISTRICT_REGIONS,
        normalizeForLookup kv.1 ≠ normalizeForLookup s := by
      intro kv hm hne
      have : scanRegions ISTANBUL_DISTRICT_REGIONS (normalizeForLookup s) = some kv.2 := by
        rw [← hne]
        exact scanRegions_mem_functional regionTable_functional hm
      rw [h] at this
      exact Option.noConfusion this
    exact scanRegions_eq_none fun kv hm => hall kv (hp.mem_iff.1 hm)
  | some r =>
    obtain ⟨kv, hm, hn, hr⟩ := scanRegions_eq_some h
    have hml : kv ∈ l := hp.mem_iff.2 hm
    have := scanRegions_mem_functional hfunl (k := kv.1) (r := kv.2) hml
    rw [hn] at this
    rw [this, hr]

lemma pyLowerChar_ws {c : Char} (h : isWs c = true) : pyLowerChar c = [c] := by
  simp only [isWs, Bool.or_eq_true, decide_eq_true_eq] at h
  rcases h with ((((h | h) | h) | h) | h) | h <;> subst h <;> decide

lemma mem_pyLower_of_ws {c : Char} {d : Str} (h : isWs c = true) (hc : c ∈ d) :
    c ∈ pyLower d := by
  rw [pyLower]
  refine List.mem_flatten.2 ⟨[c], ?_, List.mem_singleton.2 rfl⟩
  rw [← pyLowerChar_ws h]
  exact List.mem_map_of_mem pyLowerChar hc

lemma noWs_of_pyLower_eq {d target : Str} (hal : pyLower d = target)
    (htarget : ∀ c ∈ target, isWs c = false) : ∀ c ∈ d, isWs c = false := by
  intro c hc
  cases hb : isWs c with
  | false => rfl
  | true =>
    have hmem : c ∈ target := hal ▸ mem_pyLower_of_ws hb hc
    rw [htarget c hmem] at hb
    exact Bool.noConfusion hb

lemma dropWhile_noWs {s : Str} (h : ∀ c ∈ s, isWs c = false) : s.dropWhile isWs = s := by
  cases s with
  | nil => rfl
  | cons c cs =>
    rw [List.dropWhile_cons, h c (List.mem_cons_self c cs)]
    simp

lemma pyStrip_noWs {s : Str} (h : ∀ c ∈ s, isWs c = false) : pyStrip s = s := by
  rw [pyStrip, dropWhile_noWs h,
      dropWhile_noWs (fun c hc => h c (List.mem_reverse.1 hc)), List.reverse_reverse]

lemma wordsAux_noWs : ∀ (s : Str), s ≠ [] → (∀ c ∈ s, isWs c = false) →
    ∀ acc, wordsAux s acc = [acc.reverse ++ s] := by
  intro s
  induction s with
  | nil => intro h; exact absurd rfl h
  | cons c cs ih =>
    intro _ hno acc
    have hc : isWs c = false := hno c (List.mem_cons_self c cs)
    rw [wordsAux, hc]
    simp only [Bool.false_eq_true, if_false]
    cases cs with
    | nil =>
      rw [wordsAux]
      simp
    | cons d ds =>
      rw [ih (by simp) (fun x hx => hno x (List.mem_cons_of_mem c hx)) (c :: acc)]
      simp [List.reverse_cons, List.append_assoc]

lemma collapse_noWs {s : Str} (hne : s ≠ []) (h : ∀ c ∈ s, isWs c = false) :
    joinWith [' '] (pySplitWs (pyStrip s)) = s := by
  rw [pyStrip_noWs h, pySplitWs, wordsAux_noWs s hne h []]
  simp [joinWith]

lemma region_label_not_found {d : Str}
    (hal : pyLower d = "avrupa".toList ∨ pyLower d = "anadolu".toList) :
    get_istanbul_district_region d = none := by
  have hne : d ≠ [] := by
    intro he
    subst he
    rcases hal with h | h <;> exact absurd h (by decide)
  rcases hal with h | h
  · have hnws : ∀ c ∈ d, isWs c = false := noWs_of_pyLower_eq h (by decide)
    rw [get_istanbul_district_region, normalizeForLookup, collapse_noWs hne hnws, h]
    decide
  · have hnws : ∀ c ∈ d, isWs c = false := noWs_of_pyLower_eq h (by decide)
    rw [get_istanbul_district_region, normalizeForLookup, collapse_noWs hne hnws, h]
    decide

lemma lookup_some_not_label {d r : Str} (h : get_istanbul_district_region d = some r) :
    ¬(pyLower d = "avrupa".toList ∨ pyLower d = "anadolu".toList) := by
  intro hal
  rw [region_label_not_found hal] at h
  exact Option.noConfusion h

lemma lpgScanStep_fst (acc : Option Str × Option Str) (kv : Str × List AytemizLPGPriceRow) :
    (lpgScanStep acc kv).1
      = if updAv kv then kv.2.head?.map (fun r => r.lpg) else acc.1 := by
  simp only [lpgScanStep, updAv, Bool.or_eq_true, Bool.and_eq_true]
  split_ifs <;> simp_all

lemma lpgScanStep_snd (acc : Option Str × Option Str) (kv : Str × List AytemizLPGPriceRow) :
    (lpgScanStep acc kv).2
      = if updAn kv then kv.2.head?.map (fun r => r.lpg) else acc.2 := by
  simp only [lpgScanStep, updAn, Bool.or_eq_true, Bool.and_eq_true, Bool.not_eq_true']
  split_ifs <;> simp_all

lemma foldl_scan_fst : ∀ (l : List (Str × List AytemizLPGPriceRow)) (acc : Option Str × Option Str),
    (l.foldl lpgScanStep acc).1
      = match lastSat updAv l with
        | some kv => kv.2.head?.map (fun r => r.lpg)
        | none => acc.1 := by
  intro l
  induction l with
  | nil => intro acc; simp [lastSat]
  | cons kv t ih =>
    intro acc
    rw [List.foldl_cons, ih (lpgScanStep acc kv)]
    cases h : lastSat updAv t with
    | some y => simp [lastSat, h]
    | none =>
      by_cases hk : updAv kv = true
      · simp [lastSat, h, hk, lpgScanStep_fst]
      · simp [lastSat, h, hk, lpgScanStep_fst]

lemma foldl_scan_snd : ∀ (l : List (Str × List AytemizLPGPriceRow)) (acc : Option Str × Option Str),
    (l.foldl lpgScanStep acc).2
      = match lastSat updAn l with
        | some kv => kv.2.head?.map (fun r => r.lpg)
        | none => acc.2 := by
  intro l
  induction l with
  | nil => intro acc; simp [lastSat]
  | cons kv t ih =>
    intro acc
    rw [List.foldl_cons, ih (lpgScanStep acc kv)]
    cases h : lastSat updAn t with
    | some y => simp [lastSat, h]
    | none =>
      by_cases hk : updAn kv = true
      · simp [lastSat, h, hk, lpgScanStep_snd]
      · simp [lastSat, h, hk, lpgScanStep_snd]

lemma lastSat_eq_none_of_filter_nil {p : α → Bool} : ∀ {l : List α},
    l.filter p = [] → lastSat p l = none := by
  intro l
  induction l with
  | nil => intro _; rfl
  | cons x t ih =>
    intro h
    rw [List.filter_cons] at h
    by_cases hx : p x = true
    · rw [if_pos hx] at h
      exact absurd h (List.cons_ne_nil x (t.filter p))
    · rw [if_neg hx] at h
      rw [lastSat, ih h]
      simp [hx]

lemma lastSat_of_filter_singleton {p : α → Bool} {x : α} : ∀ {l : List α},
    l.filter p = [x] → lastSat p l = some x := by
  intro l
  induction l with
  | nil => intro h; exact absurd h (by simp)
  | cons y t ih =>
    intro h
    rw [List.filter_cons] at h
    by_cases hy : p y = true
    · rw [if_pos hy] at h
      obtain ⟨h1, h2⟩ := List.cons.injEq y (t.filter p) x [] ▸ h
      subst h1
      rw [lastSat, lastSat_eq_none_of_filter_nil h2]
      simp [hy]
    · rw [if_neg hy] at h
      rw [lastSat, ih h]

lemma map_copyRow (b : List AytemizBenzinPriceRow) : b.map copyRow = b := by
  have h : copyRow = fun p => p := funext copyRow_eq
  rw [h, List.map_id']

lemma merge_map_view (city : Str) (b : List AytemizBenzinPriceRow)
    (data : List (Str × List AytemizLPGPriceRow)) :
    _merge_lpg_for_single_city city b data
      = if city = "İstanbul".toList then
          b.map (istMergeRow (istanbulLpgScan data).1 (istanbulLpgScan data).2)
        else
          match lookupKey data city with
          | some (r :: _) => b.map (fun p => { p with lpg := some r.lpg })
          | _ => b := by
  by_cases h : city = "İstanbul".toList
  · simp only [_merge_lpg_for_single_city, if_pos h, map_copyRow]
  · simp only [_merge_lpg_for_single_city, if_neg h, map_copyRow]

lemma merge_length (city : Str) (b : List AytemizBenzinPriceRow)
    (data : List (Str × List AytemizLPGPriceRow)) :
    (_merge_lpg_for_single_city city b data).length = b.length := by
  rw [merge_map_view]
  by_cases h : city = "İstanbul".toList
  · rw [if_pos h, List.length_map]
  · rw [if_neg h]
    cases hk : lookupKey data city with
    | none => simp
    | some rows =>
      cases rows with
      | nil => simp
      | cons r rs => simp

lemma istMergeRow_frame (av an : Option Str) (p : AytemizBenzinPriceRow) :
    rowFrame (istMergeRow av an p) = rowFrame p := by
  cases hd : p.district with
  | none => simp [istMergeRow, hd]
  | some d =>
    simp only [istMergeRow, hd]
    repeat' split
    all_goals simp [rowFrame, hd]

lemma istMergeRow_label (av an : Option Str) (p : AytemizBenzinPriceRow) (d : Str)
    (hd : p.district = some d)
    (hl : pyLower d = "avrupa".toList ∨ pyLower d = "anadolu".toList) :
    istMergeRow av an p = p := by
  simp only [istMergeRow, hd]
  rw [if_pos hl]

lemma istMergeRow_lpg_set_av (av an : Option Str) (p : AytemizBenzinPriceRow) {d q : Str}
    (hd : p.district = some d)
    (hreg : get_istanbul_district_region d = some "Avrupa".toList)
    (hav : av = some q) (hq : q ≠ []) :
    (istMergeRow av an p).lpg = some q := by
  have hnl := lookup_some_not_label hreg
  have ht : optTruthy av = true := by
    subst hav
    cases q with
    | nil => exact absurd rfl hq
    | cons c cs => rfl
  simp only [istMergeRow, hd]
  rw [if_neg hnl]
  simp only [hreg]
  rw [if_pos ⟨trivial, ht⟩]
  subst hav
  rfl

lemma istMergeRow_lpg_set_an (av an : Option Str) (p : AytemizBenzinPriceRow) {d q : Str}
    (hd : p.district = some d)
    (hreg : get_istanbul_district_region d = some "Anadolu".toList)
    (han : an = some q) (hq : q ≠ []) :
    (istMergeRow av an p).lpg = some q := by
  have hnl := lookup_some_not_label hreg
  have ht : optTruthy an = true := by
    subst han
    cases q with
    | nil => exact absurd rfl hq
    | cons c cs => rfl
  simp only [istMergeRow, hd]
  rw [if_neg hnl]
  simp only [hreg]
  rw [if_neg (fun hcontra => absurd hcontra.1 (by decide))]
  rw [if_pos ⟨trivial, ht⟩]
  subst han
  rfl

/-- C1: in the Istanbul merge, a row whose district resolves to a region is
assigned exactly that region's LPG price, when the LPG data holds exactly one
non-empty entry whose whitespace-normalized key names Istanbul and that
region (with a non-empty price string). -/
theorem spec_c1_istanbul_region_merge
    (b : List AytemizBenzinPriceRow) (data : List (Str × List AytemizLPGPriceRow))
    (i : Nat) (row : AytemizBenzinPriceRow) (d k : Str)
    (lr : AytemizLPGPriceRow) (lrest : List AytemizLPGPriceRow)
    (hb : b[i]? = some row) (hd : row.district = some d) :
    (get_istanbul_district_region d = some "Avrupa".toList →
      data.filter updAv = [(k, lr :: lrest)] → lr.lpg ≠ [] →
      ((_merge_lpg_for_single_city "İstanbul".toList b data)[i]?).map (fun r => r.lpg)
        = some (some lr.lpg))
    ∧ (get_istanbul_district_region d = some "Anadolu".toList →
      data.filter updAn = [(k, lr :: lrest)] → lr.lpg ≠ [] →
      ((_merge_lpg_for_single_city "İstanbul".toList b data)[i]?).map (fun r => r.lpg)
        = some (some lr.lpg)) := by
  constructor
  · intro hreg hfil hne
    have hscan : (istanbulLpgScan data).1 = some lr.lpg := by
      rw [istanbulLpgScan, foldl_scan_fst, lastSat_of_filter_singleton hfil]
      rfl
    rw [merge_map_view, if_pos rfl, List.getElem?_map, hb, Option.map_some', Option.map_some']
    rw [istMergeRow_lpg_set_av _ _ row hd hreg hscan hne]
  · intro hreg hfil hne
    have hscan : (istanbulLpgScan data).2 = some lr.lpg := by
      rw [istanbulLpgScan, foldl_scan_snd, lastSat_of_filter_singleton hfil]
      rfl
    rw [merge_map_view, if_pos rfl, List.getElem?_map, hb, Option.map_some', Option.map_some']
    rw [istMergeRow_lpg_set_an _ _ row hd hreg hscan hne]

/-- Witness for C1: the Kadıköy row gets the Anadolu LPG price "18.50". -/
theorem spec_c1_witness :
    ((_merge_lpg_for_single_city "İstanbul".toList [kadikoyRow] sampleIstLpgData)[0]?).map
        (fun r => r.lpg)
      = some (some "18.50".toList) :=
  (spec_c1_istanbul_region_merge [kadikoyRow] sampleIstLpgData 0 kadikoyRow
      "Kadıköy".toList "İstanbul / Anadolu".toList istAnadoluLpgRow []
      (by decide) (by decide)).2 (by decide) (by decide) (by decide)

/-- C2 counterexample: a placeholder row whose district is literally
"Avrupa" is NOT excluded from the text output: the written file still has
one line for it (here, the only line).  (Its lpg is indeed left unset.) -/
theorem spec_c2_counterexample :
    (writeAytemizLines
        (_merge_lpg_for_single_city "İstanbul".toList [avrupaLabelRow] sampleIstLpgData)).length
      = 1
    ∧ (writeAytemizLines
        (_merge_lpg_for_single_city "İstanbul".toList [avrupaLabelRow] sampleIstLpgData)).head?
      = some ("AVRUPA | Benzin 95: - | Motorin: - | Motorin Optimum: - | Kalorifer Yakıtı: - | Fuel Oil: - | LPG: -".toList)
    ∧ ((_merge_lpg_for_single_city "İstanbul".toList [avrupaLabelRow] sampleIstLpgData)[0]?).map
        (fun r => r.lpg)
      = some none := by decide

/-- C2 as amended: rows whose district (lowercased) is literally "avrupa" or
"anadolu" are skipped from region matching — their lpg is never assigned —
but they are NOT excluded from the text output: the output has exactly one
line per merged row, placeholders included. -/
theorem spec_c2_placeholder_rows
    (b : List AytemizBenzinPriceRow) (data : List (Str × List AytemizLPGPriceRow))
    (i : Nat) (row : AytemizBenzinPriceRow) (d : Str)
    (hb : b[i]? = some row) (hd : row.district = some d)
    (hl : pyLower d = "avrupa".toList ∨ pyLower d = "anadolu".toList) :
    ((_merge_lpg_for_single_city "İstanbul".toList b data)[i]?).map (fun r => r.lpg)
      = some row.lpg
    ∧ (writeAytemizLines (_merge_lpg_for_single_city "İstanbul".toList b data)).length
      = b.length := by
  constructor
  · rw [merge_map_view, if_pos rfl, List.getElem?_map, hb, Option.map_some', Option.map_some']
    rw [istMergeRow_label _ _ row d hd hl]
  · rw [writeAytemizLines, List.length_map, merge_length]

/-- Witness for the amended C2 at the concrete placeholder row "Avrupa". -/
theorem spec_c2_witness :
    ((_merge_lpg_for_single_city "İstanbul".toList [avrupaLabelRow, kadikoyRow] sampleIstLpgData)[0]?).map
        (fun r => r.lpg)
      = some avrupaLabelRow.lpg
    ∧ (writeAytemizLines
        (_merge_lpg_for_single_city "İstanbul".toList [avrupaLabelRow, kadikoyRow] sampleIstLpgData)).length
      = ([avrupaLabelRow, kadikoyRow] : List AytemizBenzinPriceRow).length :=
  spec_c2_placeholder_rows [avrupaLabelRow, kadikoyRow] sampleIstLpgData 0 avrupaLabelRow
    "Avrupa".toList (by decide) (by decide) (by decide)

/-- C5: for a non-Istanbul city, every returned row gets the first LPG price
stored under the key exactly equal to the city name when that key holds a
non-empty list; when the key is absent every row's lpg is unchanged. -/
theorem spec_c5_non_istanbul_direct_match
    (city : Str) (b : List AytemizBenzinPriceRow)
    (data : List (Str × List AytemizLPGPriceRow))
    (h : city ≠ "İstanbul".toList) :
    (∀ (r : AytemizLPGPriceRow) (rs : List AytemizLPGPriceRow),
      lookupKey data city = some (r :: rs) →
      ∀ i : Nat, ((_merge_lpg_for_single_city city b data)[i]?).map (fun p => p.lpg)
        = (b[i]?).map (fun _ => some r.lpg))
    ∧ (lookupKey data city = none →
      ∀ i : Nat, ((_merge_lpg_for_single_city city b data)[i]?).map (fun p => p.lpg)
        = (b[i]?).map (fun p => p.lpg)) := by
  rw [merge_map_view, if_neg h]
  constructor
  · intro r rs hk i
    simp only [hk, List.getElem?_map, Option.map_map]
    rfl
  · intro hk i
    simp only [hk]

/-- Witness for C5 at the concrete city "Ankara". -/
theorem spec_c5_witness :
    ((_merge_lpg_for_single_city "Ankara".toList [ankaraBenzinRow]
        [("Ankara".toList, [ankaraLpgRow])])[0]?).map (fun p => p.lpg)
      = (([ankaraBenzinRow] : List AytemizBenzinPriceRow)[0]?).map
          (fun _ => some ankaraLpgRow.lpg) :=
  (spec_c5_non_istanbul_direct_match "Ankara".toList [ankaraBenzinRow]
      [("Ankara".toList, [ankaraLpgRow])] (by decide)).1 ankaraLpgRow [] (by decide) 0

/-- C9: the merge preserves the number and order of rows and every field
other than lpg of every row. -/
theorem spec_c9_merge_frame
    (city : Str) (b : List AytemizBenzinPriceRow)
    (data : List (Str × List AytemizLPGPriceRow)) :
    (_merge_lpg_for_single_city city b data).length = b.length
    ∧ ∀ i : Nat, ((_merge_lpg_for_single_city city b data)[i]?).map rowFrame
        = (b[i]?).map rowFrame := by
  refine ⟨merge_length city b data, ?_⟩
  intro i
  rw [merge_map_view]
  by_cases h : city = "İstanbul".toList
  · rw [if_pos h, List.getElem?_map, Option.map_map]
    cases hb : b[i]? with
    | none => rfl
    | some row =>
      simp only [Option.map_some', Function.comp]
      rw [istMergeRow_frame]
  · rw [if_neg h]
    cases hk : lookupKey data city with
    | none => rfl
    | some rows =>
      cases rows with
      | nil => rfl
      | cons r rs =>
        simp only [List.getElem?_map, Option.map_map]
        cases hb : b[i]? with
        | none => rfl
        | some row => simp [rowFrame]

lemma location_name_eq_spec (s : Str) :
    _normalize_location_name s = pyStrip (specNormalizeName s) := by
  rw [_normalize_location_name, scraperTurkishFold_eq_map, pyUpper, specNormalizeName]

lemma formatAytemizRow_eq_specLine (p : AytemizBenzinPriceRow) :
    formatAytemizRow p = specLine p := by
  simp only [formatAytemizRow]
  rw [location_name_eq_spec]
  rfl

/-- C8: the text written per city is exactly one line per row, each line the
uppercased ASCII-normalized location followed by the six labeled fields
joined by " | " with '-' for missing values; and the output file is named
`aytemiz_<CITY>_prices.txt` from the uppercased ASCII-normalized city name
(for city names without a " / " separator). -/
theorem spec_c8_text_output (prices : List AytemizBenzinPriceRow) (city : Str)
    (h : strContains city " / ".toList = false) :
    writeAytemizLines prices = prices.map specLine
    ∧ (writeAytemizLines prices).length = prices.length
    ∧ _write_aytemiz_prices_to_text prices = joinWith ['\n'] (prices.map specLine)
    ∧ aytemizFileName city = specFileName city := by
  have hmap : writeAytemizLines prices = prices.map specLine := by
    have hfun : formatAytemizRow = specLine := funext formatAytemizRow_eq_specLine
    rw [writeAytemizLines, hfun]
  refine ⟨hmap, ?_, ?_, ?_⟩
  · rw [writeAytemizLines, List.length_map]
  · rw [_write_aytemiz_prices_to_text, hmap]
  · simp only [aytemizFileName, specFileName, _normalize_city_name_for_filename, h,
      Bool.false_eq_true, if_false, scraperTurkishFold_eq_map, pyUpper, specNormalizeName]

/-- Witness for C8 at a concrete row list and the city "Ankara". -/
theorem spec_c8_witness :
    writeAytemizLines [kadikoyRow] = ([kadikoyRow] : List AytemizBenzinPriceRow).map specLine
    ∧ (writeAytemizLines [kadikoyRow]).length = ([kadikoyRow] : List AytemizBenzinPriceRow).length
    ∧ _write_aytemiz_prices_to_text [kadikoyRow]
        = joinWith ['\n'] (([kadikoyRow] : List AytemizBenzinPriceRow).map specLine)
    ∧ aytemizFileName "Ankara".toList = specFileName "Ankara".toList :=
  spec_c8_text_output [kadikoyRow] "Ankara".toList (by decide)

/-- Witness for C7: scanning the reversed table gives the same result as
the original lookup at the concrete input "Kadıköy". -/
theorem spec_c7_witness :
    scanRegions ISTANBUL_DISTRICT_REGIONS.reverse (normalizeForLookup "Kadıköy".toList)
      = get_istanbul_district_region "Kadıköy".toList :=
  spec_c7_table_functional_order_independent.2 ISTANBUL_DISTRICT_REGIONS.reverse
    (List.reverse_perm ISTANBUL_DISTRICT_REGIONS) "Kadıköy".toList
